import Mathlib

/-! React_router: the GitHub profile loader, the profile view and the page layout.

A shallow embedding of `src/Components/Github/Github.jsx` and `src/Layout.jsx`.

* JavaScript values are the inductive type `JsValue`.
* The host platform (the network behind `fetch`, the JSON reader behind
  `Response.json`) is not part of the repository, so it is taken as a
  parameter: a `Network` answers the i-th request, a `JsonParser` reads a body.
* A settled promise is an `Except JsError α`: `.ok v` is a promise resolved with
  `v`, `.error e` a promise rejected with `e`.
* Effects are recorded in an explicit `World`: the list of effects performed so
  far and the router's ambient data slot read by `useLoaderData`.
-/

namespace ReactRouter

/-! ## Values -/

/-- A JavaScript value as it can come out of `JSON.parse`, plus `undefined`.
A number is written by an integer (the follower count is an integer) and
stands for the double nearest to it; fractional numbers are outside the model.
An object is its list of own properties in insertion order. -/
inductive JsValue where
  | undefined
  | null
  | bool (b : Bool)
  | num (n : Int)
  | str (s : String)
  | arr (items : List JsValue)
  | obj (fields : List (String × JsValue))

/-- The ways a JavaScript computation of this program can throw, or a promise
can be rejected. -/
inductive JsError where
  /-- `fetch` rejected: the request never produced a response. -/
  | network (reason : String)
  /-- `Response.json` rejected: the body is not JSON text. -/
  | syntaxError (body : String)
  /-- a property was read from `undefined` or `null`, or an object was used as a child. -/
  | typeError (what : String)
  deriving DecidableEq, Repr

/-- Property read `v.key`. Reading from `undefined` or `null` throws a
`TypeError`; an object yields its own property or `undefined`; every other
value yields `undefined` (used only at the keys `followers` and `avatar_url`,
which no built-in prototype defines). -/
def getProp (v : JsValue) (key : String) : Except JsError JsValue :=
  match v with
  | .undefined => .error (.typeError ("Cannot read properties of undefined (reading \x27" ++ key ++ "\x27)"))
  | .null => .error (.typeError ("Cannot read properties of null (reading \x27" ++ key ++ "\x27)"))
  | .obj fields =>
    match fields.lookup key with
    | some x => .ok x
    | none => .ok .undefined
  | _ => .ok .undefined

/-! ## The platform: fetch and Response.json -/

/-- The optional second argument of `fetch`. -/
structure RequestInit where
  method : Option String := none
  headers : List (String × String) := []
  body : Option String := none
  deriving DecidableEq, Repr

/-- The request that goes on the wire. -/
structure Request where
  method : String
  url : String
  headers : List (String × String)
  body : Option String
  deriving DecidableEq, Repr

/-- The request `fetch(input, init)` builds: without an `init` the method is
`GET`, the header list is empty and there is no body. -/
def requestOf (input : String) (init : Option RequestInit) : Request :=
  match init with
  | none => { method := "GET", url := input, headers := [], body := none }
  | some i => { method := i.method.getD "GET", url := input, headers := i.headers, body := i.body }

/-- An HTTP response as `fetch` hands it over: status line, headers and the raw
body text. -/
structure Response where
  status : Nat
  headers : List (String × String)
  body : String
  deriving DecidableEq, Repr

/-- The network: what the request number `i` (counted from 0) is answered with,
either a response (of any status) or a network-level failure. -/
abbrev Network := Nat → Request → Except JsError Response

/-- The JSON reader of the platform: `some v` when the text is JSON for `v`. -/
abbrev JsonParser := String → Option JsValue

/-- An observable effect of the program. -/
inductive Effect where
  /-- an outbound request was issued by `fetch` -/
  | fetch (req : Request)
  /-- the body of a response was read by `Response.json` -/
  | json (body : String)
  deriving DecidableEq, Repr

/-- The state the program runs in: the effects performed so far and the
router's data slot for the current route. -/
structure World where
  trace : List Effect
  loaderData : JsValue

/-- The requests issued in a trace, oldest first. -/
def requestsOf : List Effect → List Request
  | [] => []
  | .fetch r :: es => r :: requestsOf es
  | .json _ :: es => requestsOf es

/-- `await fetch(input, init)`: issues one request, which the network answers
according to the number of requests issued before it. -/
def fetch (net : Network) (input : String) (init : Option RequestInit) (w : World) :
    Except JsError Response × World :=
  let req := requestOf input init
  (net (requestsOf w.trace).length req, { w with trace := w.trace ++ [.fetch req] })

/-- `response.json()`: reads the body and parses it; a body that is not JSON
rejects with a `SyntaxError`. -/
def Response.json (parse : JsonParser) (response : Response) (w : World) :
    Except JsError JsValue × World :=
  let w1 := { w with trace := w.trace ++ [.json response.body] }
  match parse response.body with
  | some v => (.ok v, w1)
  | none => (.error (.syntaxError response.body), w1)

/-! ## Github.jsx: the loader -/

/-- The loader of `Github.jsx`:
`async () => { const response = await fetch(URL); return response.json(); }`.
A rejected `fetch` rejects the loader at the `await`; otherwise the loader
settles as `response.json()` does. -/
def githubInfoLoader (net : Network) (parse : JsonParser) (w : World) :
    Except JsError JsValue × World :=
  match fetch net "https://api.github.com/users/anuj8553" none w with
  | (.error e, w1) => (.error e, w1)
  | (.ok response, w1) => response.json parse w1

/-- Sequential invocations of the loader, `n` of them, each awaited before the
next starts; the outcomes are listed oldest first. -/
def invokeLoader (net : Network) (parse : JsonParser) : Nat → World →
    List (Except JsError JsValue) × World
  | 0, w => ([], w)
  | n + 1, w =>
    let (r, w1) := githubInfoLoader net parse w
    let (rs, w2) := invokeLoader net parse n w1
    (r :: rs, w2)

/-! ## React elements and how the host renders them -/

/-- A React node, as a JSX expression builds it: literal text, an embedded
JavaScript value `{e}`, a host element such as `<div>`, a fragment `<>...</>`,
or a use of a component `<Header/>`. -/
inductive Node where
  | text (s : String)
  | expr (v : JsValue)
  | element (tag : String) (props : List (String × JsValue)) (children : List Node)
  | fragment (children : List Node)
  | component (name : String)

/-- What ends up on the page: text and host elements. -/
inductive Host where
  | text (s : String)
  | element (tag : String) (props : List (String × JsValue)) (children : List Host)

/-! ### Numbers as text -/

/-- The double-precision number nearest to the natural number `a`, ties going
to the even significand. Below 2^53 every natural number is its own double. -/
def roundToDouble (a : Nat) : Nat :=
  let e := Nat.log2 a - 52
  let q := a / 2 ^ e
  let r := a % 2 ^ e
  if 2 * r > 2 ^ e ∨ (2 * r = 2 ^ e ∧ q % 2 = 1) then (q + 1) * 2 ^ e else q * 2 ^ e

/-- Whether the decimal value `y` reads back as the double `x` (at least 2^53):
`y` lies within half a unit in the last place of `x`, the two ends included
exactly when the significand of `x` is even. -/
def readsBackAs (x y : Nat) : Bool :=
  let e := Nat.log2 x - 52
  let m := x / 2 ^ e
  let up := 2 ^ e
  let down := if m = 2 ^ 52 then 2 ^ e / 2 else 2 ^ e
  if m % 2 = 0 then
    decide (2 * x ≤ 2 * y + down ∧ 2 * y ≤ 2 * x + up)
  else
    decide (2 * x < 2 * y + down ∧ 2 * y < 2 * x + up)

/-- The candidates with `k` significant digits next to `x`: `x` cut after `k`
digits, and that plus one unit of the last kept digit. The one that reads back
as `x` is returned, the nearer to `x` when both do. -/
def nearestWithDigits (x k : Nat) : Option Nat :=
  let u := 10 ^ ((Nat.toDigits 10 x).length - k)
  let lo := x / u * u
  let hi := lo + u
  match readsBackAs x lo, readsBackAs x hi with
  | true, true => if x - lo ≤ hi - x then some lo else some hi
  | true, false => some lo
  | false, true => some hi
  | false, false => none

/-- The decimal value with the fewest significant digits that reads back as the
double `x` (at least 2^53); 17 digits always suffice. -/
def shortestDecimal (x : Nat) : Nat :=
  ((List.range 17).findSome? (fun i => nearestWithDigits x (i + 1))).getD x

/-- The digits of `y` without its trailing zeros. -/
def significantDigits (y : Nat) : List Char :=
  ((Nat.toDigits 10 y).reverse.dropWhile (fun c => c == '0')).reverse

/-- Exponent notation of JavaScript for a value of 22 digits or more: the first
significant digit, a point and the other significant digits if there are any,
then `e+` and the decimal exponent. -/
def exponentForm (y : Nat) : String :=
  let exponent := toString ((Nat.toDigits 10 y).length - 1)
  match significantDigits y with
  | [] => "0"
  | [d] => String.mk [d] ++ "e+" ++ exponent
  | d :: ds => String.mk (d :: '.' :: ds) ++ "e+" ++ exponent

/-- JavaScript's text for the number written by the integer `n`
(`Number.prototype.toString`, here for integer values). Up to 2^53 in size it
is the decimal numeral. Beyond, the number is the nearest double, printed with
the fewest digits that identify it: padded with zeros below 10^21, in exponent
notation from there on, and `Infinity` past the largest double. -/
def numberToString (n : Int) : String :=
  if n.natAbs < 2 ^ 53 then toString n
  else
    let sign := if n < 0 then "-" else ""
    let x := roundToDouble n.natAbs
    if 2 ^ 1024 ≤ x then sign ++ "Infinity"
    else
      let y := shortestDecimal x
      if y < 10 ^ 21 then sign ++ toString y else sign ++ exponentForm y

/-! ### Children -/

/-- How React renders a string child: the empty string produces no text node. -/
def renderString (s : String) : List Host :=
  if s = "" then [] else [.text s]

mutual
/-- How React renders a JavaScript value used as a child: `undefined`, `null`
and booleans render nothing, a number renders as the text JavaScript gives it,
a string as itself, an array as its items in order, and a plain object is an
error. -/
def renderValue : JsValue → Except JsError (List Host)
  | .undefined => .ok []
  | .null => .ok []
  | .bool _ => .ok []
  | .num n => .ok [.text (numberToString n)]
  | .str s => .ok (renderString s)
  | .arr items => renderValues items
  | .obj _ => .error (.typeError "Objects are not valid as a React child")
/-- The items of an array child, rendered in order. -/
def renderValues : List JsValue → Except JsError (List Host)
  | [] => .ok []
  | v :: vs =>
    match renderValue v with
    | .error e => .error e
    | .ok hs =>
      match renderValues vs with
      | .error e => .error e
      | .ok hs2 => .ok (hs ++ hs2)
end

mutual
/-- Rendering of a node: literal text is a string child, an embedded value
follows `renderValue`, a host element keeps its props and renders its children inside it, a fragment
contributes its children without a wrapper, and a component contributes the
output `env` gives for it. -/
def render (env : String → List Host) : Node → Except JsError (List Host)
  | .text s => .ok (renderString s)
  | .expr v => renderValue v
  | .element tag props children =>
    match renderAll env children with
    | .error e => .error e
    | .ok hs => .ok [.element tag props hs]
  | .fragment children => renderAll env children
  | .component name => .ok (env name)
/-- The children of a node, rendered in order and concatenated. -/
def renderAll (env : String → List Host) : List Node → Except JsError (List Host)
  | [] => .ok []
  | c :: cs =>
    match render env c with
    | .error e => .error e
    | .ok hs =>
      match renderAll env cs with
      | .error e => .error e
      | .ok hs2 => .ok (hs ++ hs2)
end

mutual
/-- The text a reader sees in a piece of output: the text nodes, in order. -/
def Host.textContent : Host → String
  | .text s => s
  | .element _ _ children => Host.textContentAll children
/-- The text of a list of output nodes. -/
def Host.textContentAll : List Host → String
  | [] => ""
  | h :: hs => Host.textContent h ++ Host.textContentAll hs
end

/-! ## Github.jsx: the view -/

/-- The hook `useLoaderData()`: reads the router's data slot. -/
def useLoaderData (w : World) : JsValue := w.loaderData

/-- The component of `Github.jsx`. It reads the data slot, then builds
`<div className=...>Github: {data.followers}<img src={data.avatar_url}
alt="Git Picture" width={300} /></div>`; the two property reads throw when the
slot holds `undefined` or `null`. -/
def Github (w : World) : Except JsError Node × World :=
  let data := useLoaderData w
  match getProp data "followers" with
  | .error e => (.error e, w)
  | .ok followers =>
    match getProp data "avatar_url" with
    | .error e => (.error e, w)
    | .ok avatar_url =>
      (.ok (.element "div"
        [("className", .str "text-center m-4 bg-gray-600 text-white p-4 text-3xl")]
        [.text "Github: ",
         .expr followers,
         .element "img"
           [("src", avatar_url), ("alt", .str "Git Picture"), ("width", .num 300)]
           []]), w)

/-! ## Layout.jsx -/

/-- The component of `Layout.jsx`: `<><Header/><Outlet/><Footer/></>`. -/
def Layout : Node :=
  .fragment [.component "Header", .component "Outlet", .component "Footer"]

/-! ## Mock platform used by the examples -/

/-- Body text of a profile response. -/
def profileBody : String :=
  "\x7b\"followers\": 42, \"avatar_url\": \"https://example.com/a.png\"\x7d"

/-- The value `profileBody` is JSON for. -/
def profileValue : JsValue :=
  .obj [("followers", .num 42), ("avatar_url", .str "https://example.com/a.png")]

/-- Body text of a rate-limit response. -/
def rateLimitBody : String := "\x7b\"message\": \"API rate limit exceeded\"\x7d"

/-- The value `rateLimitBody` is JSON for. -/
def rateLimitValue : JsValue := .obj [("message", .str "API rate limit exceeded")]

/-- A profile with a field the view does not read. -/
def profileWithLogin : JsValue :=
  .obj [("login", .str "anuj8553"), ("followers", .num 42), ("avatar_url", .str "a.png")]

/-- The same two fields in another order, next to a different extra field. -/
def profileReordered : JsValue :=
  .obj [("avatar_url", .str "a.png"), ("followers", .num 42), ("id", .num 7)]

/-- A mock JSON reader: it knows the two bodies above and the numerals 0 to 9,
and rejects every other text. -/
def mockParse : JsonParser := fun s =>
  if s = profileBody then some profileValue
  else if s = rateLimitBody then some rateLimitValue
  else match s.data with
    | [c] => if c.isDigit then some (.num (c.toNat - 48)) else none
    | _ => none

/-- A mock network that answers every request with the given status and body. -/
def mockNet (status : Nat) (body : String) : Network :=
  fun _ _ => .ok { status := status, headers := [], body := body }

/-- A mock network that is down. -/
def mockDown : Network := fun _ _ => .error (.network "connection refused")

/-- A mock network whose i-th answer has body the numeral `i` (for i below 10). -/
def mockCounting : Network :=
  fun i _ => .ok { status := 200, headers := [], body := toString i }

/-- A world in which nothing has happened yet. -/
def freshWorld : World := { trace := [], loaderData := .undefined }

/-! ## Auxiliary lemmas -/

theorem requestsOf_append (a b : List Effect) :
    requestsOf (a ++ b) = requestsOf a ++ requestsOf b := by
  induction a with
  | nil => rfl
  | cons e es ih =>
    cases e with
    | fetch r => simp [requestsOf, ih]
    | json body => simp [requestsOf, ih]

/-- Up to 2^53 in size an integer prints as its decimal numeral. -/
theorem numberToString_of_safe (n : Int) (h : n.natAbs < 2 ^ 53) :
    numberToString n = toString n := by
  unfold numberToString
  rw [if_pos h]

/-- A loader run whose request is answered and whose body parses. -/
theorem githubInfoLoader_ok (net : Network) (parse : JsonParser) (w : World)
    (resp : Response) (v : JsValue)
    (hnet : net (requestsOf w.trace).length
      (requestOf "https://api.github.com/users/anuj8553" none) = .ok resp)
    (hparse : parse resp.body = some v) :
    githubInfoLoader net parse w =
      (.ok v, { w with trace := w.trace ++
        [.fetch (requestOf "https://api.github.com/users/anuj8553" none), .json resp.body] }) := by
  simp [githubInfoLoader, fetch, hnet, Response.json, hparse]

/-- A loader run whose request fails. -/
theorem githubInfoLoader_error (net : Network) (parse : JsonParser) (w : World)
    (e : JsError)
    (hnet : net (requestsOf w.trace).length
      (requestOf "https://api.github.com/users/anuj8553" none) = .error e) :
    githubInfoLoader net parse w =
      (.error e, { w with trace := w.trace ++
        [.fetch (requestOf "https://api.github.com/users/anuj8553" none)] }) := by
  simp [githubInfoLoader, fetch, hnet]

/-- Whatever the network and the reader do, one loader run adds exactly one
request to the trace. -/
theorem githubInfoLoader_requests (net : Network) (parse : JsonParser) (w : World) :
    requestsOf (githubInfoLoader net parse w).2.trace =
      requestsOf w.trace ++ [requestOf "https://api.github.com/users/anuj8553" none] := by
  unfold githubInfoLoader fetch
  cases hnet : net (requestsOf w.trace).length
      (requestOf "https://api.github.com/users/anuj8553" none) with
  | error e => simp [hnet, requestsOf_append, requestsOf]
  | ok resp =>
    cases hp : parse resp.body <;>
      simp [hnet, Response.json, hp, requestsOf_append, requestsOf]

/-! ## The loader -/

/-- C1. When the response to the loader's request has a body that parses as
JSON to `v`, the loader resolves to exactly `v`, whatever `v` is: nothing is
added, removed, renamed or transformed. -/
theorem githubInfoLoader_resolves_to_parsed_body (net : Network) (parse : JsonParser)
    (w : World) (resp : Response) (v : JsValue)
    (hnet : net (requestsOf w.trace).length
      (requestOf "https://api.github.com/users/anuj8553" none) = .ok resp)
    (hparse : parse resp.body = some v) :
    (githubInfoLoader net parse w).1 = .ok v := by
  rw [githubInfoLoader_ok net parse w resp v hnet hparse]

theorem githubInfoLoader_resolves_to_parsed_body_witness :
    mockNet 200 profileBody (requestsOf freshWorld.trace).length
        (requestOf "https://api.github.com/users/anuj8553" none)
      = .ok { status := 200, headers := [], body := profileBody } ∧
    mockParse profileBody = some profileValue ∧
    (githubInfoLoader (mockNet 200 profileBody) mockParse freshWorld).1 =
      .ok (.obj [("followers", .num 42), ("avatar_url", .str "https://example.com/a.png")]) :=
  ⟨rfl, rfl,
    githubInfoLoader_resolves_to_parsed_body (mockNet 200 profileBody) mockParse freshWorld
      { status := 200, headers := [], body := profileBody } profileValue rfl rfl⟩

/-- C2. The loader does not look at the HTTP status: two responses with the
same JSON-parsable body and any two status codes (and any headers) both make
the loader resolve, to the same value, the parsed body. -/
theorem githubInfoLoader_ignores_status (net1 net2 : Network) (parse : JsonParser)
    (w : World) (status1 status2 : Nat) (headers1 headers2 : List (String × String))
    (body : String) (v : JsValue)
    (hnet1 : net1 (requestsOf w.trace).length
      (requestOf "https://api.github.com/users/anuj8553" none)
        = .ok { status := status1, headers := headers1, body := body })
    (hnet2 : net2 (requestsOf w.trace).length
      (requestOf "https://api.github.com/users/anuj8553" none)
        = .ok { status := status2, headers := headers2, body := body })
    (hparse : parse body = some v) :
    (githubInfoLoader net1 parse w).1 = .ok v ∧
    (githubInfoLoader net2 parse w).1 = .ok v := by
  constructor
  · rw [githubInfoLoader_ok net1 parse w _ v hnet1 hparse]
  · rw [githubInfoLoader_ok net2 parse w _ v hnet2 hparse]

theorem githubInfoLoader_ignores_status_witness :
    (githubInfoLoader (mockNet 200 rateLimitBody) mockParse freshWorld).1 =
      .ok (.obj [("message", .str "API rate limit exceeded")]) ∧
    (githubInfoLoader (mockNet 403 rateLimitBody) mockParse freshWorld).1 =
      .ok (.obj [("message", .str "API rate limit exceeded")]) :=
  githubInfoLoader_ignores_status (mockNet 200 rateLimitBody) (mockNet 403 rateLimitBody)
    mockParse freshWorld 200 403 [] [] rateLimitBody rateLimitValue rfl rfl rfl

/-- C3. When the fetch fails with `e`, the loader is rejected with that same
`e`; it resolves to no value at all, and the only effect of the run is the
request: the body-reading step does not happen. -/
theorem githubInfoLoader_propagates_fetch_failure (net : Network) (parse : JsonParser)
    (w : World) (e : JsError)
    (hnet : net (requestsOf w.trace).length
      (requestOf "https://api.github.com/users/anuj8553" none) = .error e) :
    (githubInfoLoader net parse w).1 = .error e ∧
    (∀ v, (githubInfoLoader net parse w).1 ≠ .ok v) ∧
    (githubInfoLoader net parse w).2.trace =
      w.trace ++ [.fetch (requestOf "https://api.github.com/users/anuj8553" none)] := by
  rw [githubInfoLoader_error net parse w e hnet]
  exact ⟨rfl, fun v h => by simp at h, rfl⟩

theorem githubInfoLoader_propagates_fetch_failure_witness :
    (githubInfoLoader mockDown mockParse freshWorld).1
      = .error (.network "connection refused") ∧
    (∀ v, (githubInfoLoader mockDown mockParse freshWorld).1 ≠ .ok v) ∧
    (githubInfoLoader mockDown mockParse freshWorld).2.trace =
      freshWorld.trace ++ [.fetch (requestOf "https://api.github.com/users/anuj8553" none)] :=
  githubInfoLoader_propagates_fetch_failure mockDown mockParse freshWorld
    (.network "connection refused") rfl

/-- C4. When the fetch succeeds and the body is not JSON, the body is read, the
parse fails, and the loader is rejected with the syntax error: it resolves to
no value, as with a network failure. -/
theorem githubInfoLoader_rejects_malformed_body (net : Network) (parse : JsonParser)
    (w : World) (resp : Response)
    (hnet : net (requestsOf w.trace).length
      (requestOf "https://api.github.com/users/anuj8553" none) = .ok resp)
    (hparse : parse resp.body = none) :
    (githubInfoLoader net parse w).1 = .error (.syntaxError resp.body) ∧
    (∀ v, (githubInfoLoader net parse w).1 ≠ .ok v) ∧
    (githubInfoLoader net parse w).2.trace =
      w.trace ++ [.fetch (requestOf "https://api.github.com/users/anuj8553" none),
        .json resp.body] := by
  have h : githubInfoLoader net parse w =
      (.error (.syntaxError resp.body), { w with trace := w.trace ++
        [.fetch (requestOf "https://api.github.com/users/anuj8553" none),
          .json resp.body] }) := by
    simp [githubInfoLoader, fetch, hnet, Response.json, hparse]
  rw [h]
  exact ⟨rfl, fun v hv => by simp at hv, rfl⟩

theorem githubInfoLoader_rejects_malformed_body_witness :
    mockParse "<html>Bad Gateway</html>" = none ∧
    (githubInfoLoader (mockNet 502 "<html>Bad Gateway</html>") mockParse freshWorld).1
      = .error (.syntaxError "<html>Bad Gateway</html>") :=
  ⟨rfl,
    (githubInfoLoader_rejects_malformed_body (mockNet 502 "<html>Bad Gateway</html>")
      mockParse freshWorld
      { status := 502, headers := [], body := "<html>Bad Gateway</html>" } rfl
      rfl).1⟩

/-- C5. Every invocation of the loader issues exactly one request and resolves
to the body of its own response: after `n` sequential invocations against a
network whose answer to the i-th of them is `resp i`, with body parsing to
`val i`, the outcomes are `val 0, ..., val (n-1)` in order and exactly `n`
requests have been added to the trace. -/
theorem invokeLoader_one_request_per_invocation (net : Network) (parse : JsonParser)
    (n : Nat) (w : World) (resp : Nat → Response) (val : Nat → JsValue)
    (hnet : ∀ i, i < n → ∀ req, net ((requestsOf w.trace).length + i) req = .ok (resp i))
    (hparse : ∀ i, i < n → parse (resp i).body = some (val i)) :
    (invokeLoader net parse n w).1 = (List.range n).map (fun i => .ok (val i)) ∧
    requestsOf (invokeLoader net parse n w).2.trace =
      requestsOf w.trace ++
        List.replicate n (requestOf "https://api.github.com/users/anuj8553" none) := by
  induction n generalizing w resp val with
  | zero => simp [invokeLoader]
  | succ n ih =>
    have h0 := githubInfoLoader_ok net parse w (resp 0) (val 0)
      (by simpa using hnet 0 (Nat.succ_pos n) _) (hparse 0 (Nat.succ_pos n))
    have hlen : (requestsOf (w.trace ++
        [.fetch (requestOf "https://api.github.com/users/anuj8553" none),
          .json (resp 0).body])).length = (requestsOf w.trace).length + 1 := by
      simp [requestsOf_append, requestsOf]
    have hrest := ih
      { w with trace := w.trace ++
        [.fetch (requestOf "https://api.github.com/users/anuj8553" none),
          .json (resp 0).body] }
      (fun i => resp (i + 1)) (fun i => val (i + 1))
      (fun i hi req => by
        have := hnet (i + 1) (Nat.succ_lt_succ hi) req
        rw [hlen]
        rw [← this]
        congr 1
        omega)
      (fun i hi => hparse (i + 1) (Nat.succ_lt_succ hi))
    simp only [invokeLoader, h0]
    refine ⟨?_, ?_⟩
    · rw [hrest.1, List.range_succ_eq_map]
      simp [Function.comp_def]
    · rw [hrest.2]
      simp [requestsOf_append, requestsOf, List.replicate_succ]

theorem invokeLoader_one_request_per_invocation_witness :
    (invokeLoader mockCounting mockParse 3 freshWorld).1 =
      [.ok (.num 0), .ok (.num 1), .ok (.num 2)] ∧
    requestsOf (invokeLoader mockCounting mockParse 3 freshWorld).2.trace =
      [requestOf "https://api.github.com/users/anuj8553" none,
       requestOf "https://api.github.com/users/anuj8553" none,
       requestOf "https://api.github.com/users/anuj8553" none] :=
  invokeLoader_one_request_per_invocation mockCounting mockParse 3 freshWorld
    (fun i => { status := 200, headers := [], body := toString i })
    (fun i => .num i)
    (fun i _ _ => by simp [mockCounting, freshWorld, requestsOf])
    (fun i hi => by interval_cases i <;> rfl)

/-- C6. Whatever the world, the network and the reader are, the one request a
loader run adds to the trace is the same: a GET of the fixed URL
`https://api.github.com/users/anuj8553`, with an empty header list (so no
credentials), no body, and no query part in the URL. -/
theorem githubInfoLoader_request_is_fixed (net : Network) (parse : JsonParser) (w : World) :
    ∃ r : Request,
      requestsOf (githubInfoLoader net parse w).2.trace = requestsOf w.trace ++ [r] ∧
      r.method = "GET" ∧
      r.url = "https://api.github.com/users/anuj8553" ∧
      r.headers = [] ∧
      r.body = none ∧
      ¬ ('?' ∈ r.url.data) ∧ ¬ ('@' ∈ r.url.data) :=
  ⟨requestOf "https://api.github.com/users/anuj8553" none,
    githubInfoLoader_requests net parse w, rfl, rfl, rfl, rfl, by decide, by decide⟩

/-! ## The view -/

/-- C7. When the data slot holds a profile whose `followers` is the count `n`
(an integer below 2^53 in size, which JavaScript holds exactly and prints as
its decimal numeral) and whose `avatar_url` is the string `u`, the view renders
without throwing, and the output is a single `div` block holding the text
`Github: `, then the decimal text of `n`, then one `img` element with `src`
equal to `u`, `alt` equal to `Git Picture` and `width` equal to 300; the text
of the block is `Github: ` followed by `n`. -/
theorem Github_renders_profile (w : World) (n : Int) (u : String)
    (hfollowers : getProp w.loaderData "followers" = .ok (.num n))
    (havatar : getProp w.loaderData "avatar_url" = .ok (.str u))
    (hsafe : n.natAbs < 2 ^ 53) :
    ∃ node : Node, (Github w).1 = .ok node ∧
      ∀ env : String → List Host,
        render env node = .ok
          [.element "div"
            [("className", .str "text-center m-4 bg-gray-600 text-white p-4 text-3xl")]
            [.text "Github: ",
             .text (toString n),
             .element "img"
               [("src", .str u), ("alt", .str "Git Picture"), ("width", .num 300)] []]] ∧
        (render env node).map Host.textContentAll = .ok ("Github: " ++ toString n) := by
  refine ⟨.element "div"
      [("className", .str "text-center m-4 bg-gray-600 text-white p-4 text-3xl")]
      [.text "Github: ", .expr (.num n),
       .element "img"
         [("src", .str u), ("alt", .str "Git Picture"), ("width", .num 300)] []],
    by simp only [Github, useLoaderData, hfollowers, havatar], ?_⟩
  intro env
  have hrender : render env (.element "div"
      [("className", .str "text-center m-4 bg-gray-600 text-white p-4 text-3xl")]
      [.text "Github: ", .expr (.num n),
       .element "img"
         [("src", .str u), ("alt", .str "Git Picture"), ("width", .num 300)] []]) = .ok
      [.element "div"
        [("className", .str "text-center m-4 bg-gray-600 text-white p-4 text-3xl")]
        [.text "Github: ",
         .text (toString n),
         .element "img"
           [("src", .str u), ("alt", .str "Git Picture"), ("width", .num 300)] []]] := by
    rw [← numberToString_of_safe n hsafe]
    rfl
  rw [hrender]
  refine ⟨rfl, ?_⟩
  simp [Except.map, Host.textContentAll, Host.textContent]

theorem Github_renders_profile_witness :
    (42 : Int).natAbs < 2 ^ 53 ∧
    ∃ node : Node,
      (Github { trace := [], loaderData := profileValue }).1 = .ok node ∧
      ∀ env : String → List Host,
        render env node = .ok
          [.element "div"
            [("className", .str "text-center m-4 bg-gray-600 text-white p-4 text-3xl")]
            [.text "Github: ",
             .text "42",
             .element "img"
               [("src", .str "https://example.com/a.png"), ("alt", .str "Git Picture"),
                ("width", .num 300)] []]] ∧
        (render env node).map Host.textContentAll = .ok "Github: 42" :=
  ⟨by decide,
    Github_renders_profile { trace := [], loaderData := profileValue } 42
      "https://example.com/a.png" rfl rfl (by decide)⟩

/-- C8, as stated, fails: with the value `{}` in the data slot the view does
render, but the text `Github: undefined` is nowhere in the output. -/
theorem Github_empty_object_no_undefined_text :
    ¬ ∃ (node : Node) (out : List Host),
      (Github { trace := [], loaderData := .obj [] }).1 = .ok node ∧
      render (fun _ => []) node = .ok out ∧
      "Github: undefined".data <:+: (Host.textContentAll out).data := by
  rintro ⟨node, out, hnode, hout, htext⟩
  have h1 : node = .element "div"
      [("className", .str "text-center m-4 bg-gray-600 text-white p-4 text-3xl")]
      [.text "Github: ", .expr .undefined,
       .element "img"
         [("src", .undefined), ("alt", .str "Git Picture"), ("width", .num 300)] []] := by
    have : (Github { trace := [], loaderData := .obj [] }).1 = .ok (.element "div"
      [("className", .str "text-center m-4 bg-gray-600 text-white p-4 text-3xl")]
      [.text "Github: ", .expr .undefined,
       .element "img"
         [("src", .undefined), ("alt", .str "Git Picture"), ("width", .num 300)] []]) := rfl
    rw [this] at hnode
    exact (Except.ok.inj hnode).symm
  subst h1
  have h2 : out = [.element "div"
      [("className", .str "text-center m-4 bg-gray-600 text-white p-4 text-3xl")]
      [.text "Github: ",
       .element "img"
         [("src", .undefined), ("alt", .str "Git Picture"), ("width", .num 300)] []]] :=
    (Except.ok.inj hout).symm
  subst h2
  revert htext
  decide

/-- C8, amended. With the value `{}` in the data slot (neither `followers` nor
`avatar_url` present) the view renders without throwing; an `undefined` child
renders nothing, so the text of the output is exactly `Github: `, and the `img`
element that follows has `undefined` as its `src`, with `alt` and `width` as
always. -/
theorem Github_renders_empty_object (trace : List Effect) (env : String → List Host) :
    ∃ node : Node,
      (Github { trace := trace, loaderData := .obj [] }).1 = .ok node ∧
      render env node = .ok
        [.element "div"
          [("className", .str "text-center m-4 bg-gray-600 text-white p-4 text-3xl")]
          [.text "Github: ",
           .element "img"
             [("src", .undefined), ("alt", .str "Git Picture"), ("width", .num 300)] []]] ∧
      (render env node).map Host.textContentAll = .ok "Github: " :=
  ⟨_, rfl, rfl, rfl⟩

/-- C9. The view depends on the data slot only through its `followers` and
`avatar_url`: two worlds whose slots agree on these two reads give the same
result, whatever else the slots hold; and rendering leaves the world as it
was, so it issues no request. -/
theorem Github_depends_only_on_two_fields (w1 w2 : World)
    (hfollowers : getProp w1.loaderData "followers" = getProp w2.loaderData "followers")
    (havatar : getProp w1.loaderData "avatar_url" = getProp w2.loaderData "avatar_url") :
    (Github w1).1 = (Github w2).1 ∧
    (∀ env, (match (Github w1).1 with
        | .ok node => render env node
        | .error e => .error e) =
      (match (Github w2).1 with
        | .ok node => render env node
        | .error e => .error e)) ∧
    (Github w1).2.trace = w1.trace ∧
    requestsOf (Github w1).2.trace = requestsOf w1.trace := by
  have h : (Github w1).1 = (Github w2).1 := by
    simp only [Github, useLoaderData, hfollowers, havatar]
    cases getProp w2.loaderData "followers" with
    | error e => rfl
    | ok f =>
      cases getProp w2.loaderData "avatar_url" with
      | error e => rfl
      | ok a => rfl
  have ht : (Github w1).2 = w1 := by
    simp only [Github]
    cases getProp (useLoaderData w1) "followers" with
    | error e => rfl
    | ok f =>
      cases getProp (useLoaderData w1) "avatar_url" with
      | error e => rfl
      | ok a => rfl
  refine ⟨h, ?_, ?_, ?_⟩
  · intro env
    rw [h]
  · rw [ht]
  · rw [ht]

theorem Github_depends_only_on_two_fields_witness :
    (Github { trace := [], loaderData := profileWithLogin }).1
      = (Github { trace := [.json "0"], loaderData := profileReordered }).1 :=
  (Github_depends_only_on_two_fields
    { trace := [], loaderData := profileWithLogin }
    { trace := [.json "0"], loaderData := profileReordered }
    rfl rfl).1

/-! ## The layout -/

/-- C10. The layout is a fragment, so it adds no wrapping element, and it has
exactly three children: the header, the outlet and the footer, in this order.
Whatever the three render to, the page is the output of the header, followed by
the content of the outlet, followed by the output of the footer, and nothing
else. -/
theorem Layout_is_header_outlet_footer :
    Layout = .fragment [.component "Header", .component "Outlet", .component "Footer"] ∧
    ∀ env : String → List Host,
      render env Layout = .ok (env "Header" ++ env "Outlet" ++ env "Footer") := by
  refine ⟨rfl, fun env => ?_⟩
  simp [Layout, render, renderAll]

end ReactRouter
